import Mathlib

/-!
Verification of the cefr-reading-test pronunciation pipeline.

This file embeds, in Lean 4, the scoring and analysis code of the
repository (the `ScoringEngine` class and the `PhoneticAnalysisEngine`
class) and proves or refutes the stated properties of its specification.

Modelling conventions:
* JavaScript numbers are modelled as rationals (`ℚ`); all the arithmetic
  involved in the claims is exact decimal arithmetic, so `ℚ` matches the
  float computation on every input considered.  The one genuinely
  irrational operation, `Math.sqrt` in the RMS computation, is modelled
  with `Real.sqrt`.
* `Math.random()` draws are modelled by explicit streams of rationals
  passed as arguments; a run of the JavaScript program corresponds to one
  choice of stream, with every draw in `[0, 1)`.
* `undefined`/absent object fields are modelled with `Option`;
  JavaScript truthiness of a string is non-emptiness, of a number is
  being nonzero.
* String operations model the ASCII fragment of the JavaScript regexes
  involved (`\s` = space/tab/newline/carriage-return, `\w` =
  alphanumeric or underscore), which covers all texts of the fixtures.
-/

/-- JavaScript `Math.round`: round half toward positive infinity. -/
def jsRound (q : ℚ) : ℤ := ⌊q + 1/2⌋

/-- Whitespace characters recognised by the `\s` regex class (ASCII fragment). -/
def isWsChar (c : Char) : Bool := c = ' ' || c = '\t' || c = '\n' || c = '\r'

/-- Word characters of the `\w` regex class: `[A-Za-z0-9_]`. -/
def isWordChar (c : Char) : Bool := c.isAlpha || c.isDigit || c = '_'

/-- Core of `text.split(/\s+/)`: split into the pieces between maximal
whitespace runs.  As in JavaScript, a leading or trailing whitespace run
produces an empty piece, and the empty string yields `[[]]`. -/
def splitWsAux : List Char → List Char → Bool → List (List Char)
  | [], acc, _ => [acc.reverse]
  | c :: rest, acc, prevWs =>
    if isWsChar c then
      if prevWs then splitWsAux rest acc true
      else acc.reverse :: splitWsAux rest [] true
    else splitWsAux rest (c :: acc) false

/-- JavaScript `text.split(/\s+/)`. -/
def splitWs (s : String) : List String :=
  (splitWsAux s.toList [] false).map String.mk

/-- `ScoringEngine.getWords`:
`text.toLowerCase().replace(/[^\w\s]/g, '').split(/\s+/).filter(w => w.length > 0)`. -/
def getWords (text : String) : List String :=
  let cleaned := (text.toList.map Char.toLower).filter fun c => isWordChar c || isWsChar c
  ((splitWsAux cleaned [] false).map String.mk).filter fun w => w.length > 0

/-- JavaScript truthiness test for an optional string: `!x` is true when the
field is absent (`undefined`) or the string is empty. -/
def strFalsy : Option String → Bool
  | none => true
  | some s => s.isEmpty

/-- The `analysisData` argument of `ScoringEngine.calculateScore`; absent
fields are `none`. -/
structure AnalysisData where
  accuracy : Option ℚ
  transcription : Option String
  expectedText : Option String
  isOffline : Bool

/-- `GRADE_THRESHOLDS` from `cefrData.js`, in object-literal insertion order
(the order `Object.entries` iterates). -/
def GRADE_THRESHOLDS : List (String × ℚ) :=
  [("C2", 92), ("C1", 85), ("B2", 75), ("B1", 65), ("A2", 55), ("A1", 0)]

/-- The scan of `ScoringEngine.mapToGrade` over the threshold entries:
return the first grade whose threshold the score reaches. -/
def mapToGradeGo (compositeScore : ℚ) : List (String × ℚ) → String
  | [] => "A1"
  | (g, th) :: rest =>
    if compositeScore ≥ th then g else mapToGradeGo compositeScore rest

/-- `ScoringEngine.mapToGrade`.  Note it receives the *unrounded* composite
score in `calculateScore`. -/
def mapToGrade (compositeScore : ℚ) : String :=
  mapToGradeGo compositeScore GRADE_THRESHOLDS

/-- `ScoringEngine.calculatePronunciationScore`: clamp to `[0,1]`. -/
def calculatePronunciationScore (accuracy : ℚ) : ℚ :=
  max 0 (min 1 accuracy)

/-- `ScoringEngine.calculateFluencyScore`.  `!duration || !idealDuration`
is the number-truthiness test, i.e. either argument equal to `0`. -/
def calculateFluencyScore (duration idealDuration : ℚ) : ℚ :=
  if duration = 0 ∨ idealDuration = 0 then 0
  else
    let deviation := |duration - idealDuration| / idealDuration
    if deviation ≤ 1/10 then 1
    else if deviation ≤ 2/10 then 9/10
    else if deviation ≤ 3/10 then 8/10
    else if deviation ≤ 5/10 then 6/10
    else if deviation ≤ 7/10 then 4/10
    else max (1/10) (1 - deviation)

/-- `ScoringEngine.calculateCompletenessScore`. -/
def calculateCompletenessScore (transcription expectedText : Option String) : ℚ :=
  if strFalsy transcription || strFalsy expectedText then 1/2
  else
    let transcribedWords := getWords (transcription.getD "")
    let expectedWords := getWords (expectedText.getD "")
    if expectedWords.length = 0 then 1/2
    else min 1 ((transcribedWords.length : ℚ) / (expectedWords.length : ℚ))

/-- `ScoringEngine.calculateClarityScore`. -/
def calculateClarityScore (analysisData : AnalysisData) : ℚ :=
  if analysisData.isOffline then 7/10
  else
    let accuracy := analysisData.accuracy.getD 0
    let hasTranscription := !(strFalsy analysisData.transcription)
    accuracy * (8/10) + (if hasTranscription then 2/10 else 0)

/-- The four sub-scores of `CompositeScore.individual`. -/
structure IndividualScores where
  pronunciation : ℚ
  fluency : ℚ
  completeness : ℚ
  clarity : ℚ
deriving DecidableEq

/-- The `scores` record built at the top of `ScoringEngine.calculateScore`. -/
def individualScores (analysisData : AnalysisData) (duration idealDuration : ℚ) :
    IndividualScores where
  pronunciation := calculatePronunciationScore (analysisData.accuracy.getD 0)
  fluency := calculateFluencyScore duration idealDuration
  completeness :=
    calculateCompletenessScore analysisData.transcription analysisData.expectedText
  clarity := calculateClarityScore analysisData

/-- The unrounded `compositeScore` local of `calculateScore`: the
`SCORING_WEIGHTS`-weighted sum of the sub-scores, times 100. -/
def rawComposite (analysisData : AnalysisData) (duration idealDuration : ℚ) : ℚ :=
  let s := individualScores analysisData duration idealDuration
  (s.pronunciation * (4/10) + s.fluency * (3/10) +
   s.completeness * (2/10) + s.clarity * (1/10)) * 100

/-- The record returned by `ScoringEngine.calculateScore`. -/
structure CompositeScore where
  individual : IndividualScores
  composite : ℤ
  grade : String
deriving DecidableEq

/-- `ScoringEngine.calculateScore`: the `composite` field is the rounded
weighted sum, while `grade` is computed from the unrounded value. -/
def calculateScore (analysisData : AnalysisData) (duration idealDuration : ℚ) :
    CompositeScore where
  individual := individualScores analysisData duration idealDuration
  composite := jsRound (rawComposite analysisData duration idealDuration)
  grade := mapToGrade (rawComposite analysisData duration idealDuration)

/-- Rank of the CEFR grades in the order A1 < A2 < B1 < B2 < C1 < C2. -/
def gradeRank : String → ℕ
  | "A2" => 1
  | "B1" => 2
  | "B2" => 3
  | "C1" => 4
  | "C2" => 5
  | _ => 0

/-- Modelled from the spec's words for the grade rule: the highest CEFR
letter (under the `gradeRank` order) whose threshold is `≤ x`. -/
def highestGradeLE (x : ℚ) : String :=
  (GRADE_THRESHOLDS.filter fun gt => gt.2 ≤ x).foldl
    (fun best gt => if gradeRank best < gradeRank gt.1 then gt.1 else best) "A1"

/-- Modelled from the spec's words for the fluency staircase (claim C7):
deviation = |duration−ideal|/ideal; ≤10%→1.0, ≤20%→0.9, ≤30%→0.8, ≤50%→0.6,
≤70%→0.4, else max(0.1, 1−deviation). -/
def fluencySpecStaircase (duration idealDuration : ℚ) : ℚ :=
  let deviation := |duration - idealDuration| / idealDuration
  if deviation ≤ 1/10 then 1
  else if deviation ≤ 2/10 then 9/10
  else if deviation ≤ 3/10 then 8/10
  else if deviation ≤ 5/10 then 6/10
  else if deviation ≤ 7/10 then 4/10
  else max (1/10) (1 - deviation)

/-- Every composite score maps, under the code's grade scan, to the highest
CEFR letter whose threshold it reaches. -/
theorem mapToGrade_eq_highestGradeLE (x : ℚ) : mapToGrade x = highestGradeLE x := by
  by_cases h1 : (92:ℚ) ≤ x
  · have h2 : (85:ℚ) ≤ x := by linarith
    have h3 : (75:ℚ) ≤ x := by linarith
    have h4 : (65:ℚ) ≤ x := by linarith
    have h5 : (55:ℚ) ≤ x := by linarith
    have h6 : (0:ℚ) ≤ x := by linarith
    simp [mapToGrade, mapToGradeGo, GRADE_THRESHOLDS, highestGradeLE,
      List.filter_cons, h1, h2, h3, h4, h5, h6, gradeRank]
  · by_cases h2 : (85:ℚ) ≤ x
    · have h3 : (75:ℚ) ≤ x := by linarith
      have h4 : (65:ℚ) ≤ x := by linarith
      have h5 : (55:ℚ) ≤ x := by linarith
      have h6 : (0:ℚ) ≤ x := by linarith
      simp [mapToGrade, mapToGradeGo, GRADE_THRESHOLDS, highestGradeLE,
        List.filter_cons, h1, h2, h3, h4, h5, h6, gradeRank]
    · by_cases h3 : (75:ℚ) ≤ x
      · have h4 : (65:ℚ) ≤ x := by linarith
        have h5 : (55:ℚ) ≤ x := by linarith
        have h6 : (0:ℚ) ≤ x := by linarith
        simp [mapToGrade, mapToGradeGo, GRADE_THRESHOLDS, highestGradeLE,
          List.filter_cons, h1, h2, h3, h4, h5, h6, gradeRank]
      · by_cases h4 : (65:ℚ) ≤ x
        · have h5 : (55:ℚ) ≤ x := by linarith
          have h6 : (0:ℚ) ≤ x := by linarith
          simp [mapToGrade, mapToGradeGo, GRADE_THRESHOLDS, highestGradeLE,
            List.filter_cons, h1, h2, h3, h4, h5, h6, gradeRank]
        · by_cases h5 : (55:ℚ) ≤ x
          · have h6 : (0:ℚ) ≤ x := by linarith
            simp [mapToGrade, mapToGradeGo, GRADE_THRESHOLDS, highestGradeLE,
              List.filter_cons, h1, h2, h3, h4, h5, h6, gradeRank]
          · by_cases h6 : (0:ℚ) ≤ x
            · simp [mapToGrade, mapToGradeGo, GRADE_THRESHOLDS, highestGradeLE,
                List.filter_cons, h1, h2, h3, h4, h5, h6, gradeRank]
            · simp [mapToGrade, mapToGradeGo, GRADE_THRESHOLDS, highestGradeLE,
                List.filter_cons, h1, h2, h3, h4, h5, h6, gradeRank]

/-- Evaluation of `getWords` on the fixture sentence. -/
theorem getWords_the_cat_sat : getWords "the cat sat" = ["the", "cat", "sat"] := by
  decide

/-- The fixture transcription is a truthy (non-empty) string. -/
theorem strFalsy_the_cat_sat : strFalsy (some "the cat sat") = false := by
  decide

/-- C1: on the fixture (duration 5, ideal 5, accuracy 0.9, transcription and
expected text "the cat sat", online), `calculateScore` returns
fluency 1.0, completeness 1.0, pronunciation 0.9, clarity 0.92,
composite 95 and grade "C2". -/
theorem C1_fixture_score :
    calculateScore ⟨some (9/10), some "the cat sat", some "the cat sat", false⟩ 5 5 =
      ⟨⟨9/10, 1, 1, 92/100⟩, 95, "C2"⟩ := by
  simp only [calculateScore, individualScores, rawComposite, calculatePronunciationScore,
    calculateFluencyScore, calculateCompletenessScore, calculateClarityScore,
    strFalsy_the_cat_sat, getWords_the_cat_sat, jsRound, mapToGrade, mapToGradeGo,
    GRADE_THRESHOLDS, CompositeScore.mk.injEq, IndividualScores.mk.injEq, Option.getD_some]
  norm_num

/-- C2 counterexample: with recognition accuracy 0.83 on the fixture sentence,
the unrounded composite is 91.84, so the returned `composite` field rounds to
92, whose highest reachable letter per the claim's table is "C2" — yet the
code's `grade` field is "C1", because `mapToGrade` is applied to the
unrounded 91.84. -/
theorem C2_counterexample :
    (calculateScore ⟨some (83/100), some "the cat sat", some "the cat sat", false⟩
        5 5).composite = 92 ∧
    (calculateScore ⟨some (83/100), some "the cat sat", some "the cat sat", false⟩
        5 5).grade = "C1" ∧
    highestGradeLE ((92 : ℤ) : ℚ) = "C2" := by
  refine ⟨?_, ?_, ?_⟩
  · simp only [calculateScore, individualScores, rawComposite, calculatePronunciationScore,
      calculateFluencyScore, calculateCompletenessScore, calculateClarityScore,
      strFalsy_the_cat_sat, getWords_the_cat_sat, jsRound, Option.getD_some]
    norm_num
  · simp only [calculateScore, individualScores, rawComposite, calculatePronunciationScore,
      calculateFluencyScore, calculateCompletenessScore, calculateClarityScore,
      strFalsy_the_cat_sat, getWords_the_cat_sat, mapToGrade, mapToGradeGo,
      GRADE_THRESHOLDS, Option.getD_some]
    norm_num
  · norm_num [highestGradeLE, GRADE_THRESHOLDS, List.filter_cons, List.filter_nil]
    decide

/-- C2 amended: the `grade` field equals the highest CEFR letter (order
A1<A2<B1<B2<C1<C2) whose threshold is ≤ the *unrounded* composite score
(the weighted sum × 100), not the rounded `composite` field. -/
theorem C2_amended_grade_from_unrounded (analysisData : AnalysisData)
    (duration idealDuration : ℚ) :
    (calculateScore analysisData duration idealDuration).grade =
      highestGradeLE (rawComposite analysisData duration idealDuration) :=
  mapToGrade_eq_highestGradeLE _

/-- C3: grade assignment is monotone — a strictly larger composite score
never maps to a lower CEFR grade in the order A1<A2<B1<B2<C1<C2. -/
theorem C3_grade_monotone (c1 c2 : ℚ) (h : c1 < c2) :
    gradeRank (mapToGrade c1) ≤ gradeRank (mapToGrade c2) := by
  simp only [mapToGrade, mapToGradeGo, GRADE_THRESHOLDS, ge_iff_le]
  split_ifs <;> first | decide | (exfalso; linarith)

/-- Witness for C3 at the concrete pair 50 < 90. -/
theorem C3_witness :
    (50:ℚ) < 90 ∧ gradeRank (mapToGrade 50) ≤ gradeRank (mapToGrade 90) :=
  ⟨by norm_num, C3_grade_monotone 50 90 (by norm_num)⟩

/-- C7: for positive duration and ideal duration, the fluency sub-score is
exactly the spec's staircase on deviation = |duration−ideal|/ideal. -/
theorem C7_fluency_staircase (duration idealDuration : ℚ)
    (hd : 0 < duration) (hi : 0 < idealDuration) :
    calculateFluencyScore duration idealDuration =
      fluencySpecStaircase duration idealDuration := by
  simp only [calculateFluencyScore, fluencySpecStaircase, hd.ne', hi.ne', or_self,
    if_false, false_or]

/-- Witness for C7 at duration 5.5, ideal 5 (deviation 10%, score 1). -/
theorem C7_witness :
    (0:ℚ) < 11/2 ∧ (0:ℚ) < 5 ∧
      calculateFluencyScore (11/2) 5 = fluencySpecStaircase (11/2) 5 :=
  ⟨by norm_num, by norm_num, C7_fluency_staircase (11/2) 5 (by norm_num) (by norm_num)⟩

/-! ## Phonetic analysis engine (`phoneticAnalysis.js`) -/

/-- `fundamental` frequency block of `AcousticFeatures`. -/
structure Fundamental where
  mean : ℚ
  range : ℚ
  values : List ℚ
deriving DecidableEq

/-- `formants` block of `AcousticFeatures`. -/
structure Formants where
  F1 : ℚ
  F2 : ℚ
  F3 : ℚ
deriving DecidableEq

/-- `spectral` block of `AcousticFeatures`. -/
structure Spectral where
  centroid : ℚ
  bandwidth : ℚ
  rolloff : ℚ
  clarity : ℚ
deriving DecidableEq

/-- `temporal` block of `AcousticFeatures` (`silences` stores the count). -/
structure Temporal where
  duration : ℚ
  silences : ℕ
  voicedRatio : ℚ
deriving DecidableEq

/-- `energy` block of `AcousticFeatures`. -/
structure EnergyFeat where
  rms : ℚ
  peak : ℚ
deriving DecidableEq

/-- The record returned by `extractAcousticFeatures`. -/
structure AcousticFeatures where
  fundamental : Fundamental
  formants : Formants
  spectral : Spectral
  temporal : Temporal
  energy : EnergyFeat
deriving DecidableEq

/-- `getFallbackFeatures`: the fixed record returned when audio decoding or
feature extraction throws.  Note it is not all-zero: duration 1 and
rms = peak = 0.01. -/
def getFallbackFeatures : AcousticFeatures where
  fundamental := ⟨0, 0, []⟩
  formants := ⟨0, 0, 0⟩
  spectral := ⟨0, 0, 0, 0⟩
  temporal := ⟨1, 0, 0⟩
  energy := ⟨1/100, 1/100⟩

/-- The try/catch structure of `extractAcousticFeatures`: the argument is
`some f` when decoding and extraction succeed with features `f`, and `none`
when any step throws (in particular `decodeAudioData` rejecting unreadable
bytes); the catch branch returns `getFallbackFeatures`. -/
def extractAcousticFeaturesR : Option AcousticFeatures → AcousticFeatures
  | none => getFallbackFeatures
  | some f => f

/-- First IPA entry of `phonemeMap.vowels` for each vowel letter. -/
def vowelMapFirst : Char → Option String
  | 'a' => some "æ"
  | 'e' => some "e"
  | 'i' => some "ɪ"
  | 'o' => some "ɒ"
  | 'u' => some "ʌ"
  | 'y' => some "ɪ"
  | _ => none

/-- First IPA entry of `phonemeMap.consonants` for each single-character key
(the two-character keys `tʃ`/`dʒ` are unreachable from `wordToPhonemes`,
which looks up one character at a time). -/
def consonantMapFirst : Char → Option String
  | 'b' => some "b"
  | 'p' => some "p"
  | 'd' => some "d"
  | 't' => some "t"
  | 'g' => some "g"
  | 'k' => some "k"
  | 'f' => some "f"
  | 'v' => some "v"
  | 's' => some "s"
  | 'z' => some "z"
  | 'θ' => some "θ"
  | 'ð' => some "ð"
  | 'ʃ' => some "ʃ"
  | 'ʒ' => some "ʒ"
  | 'h' => some "h"
  | 'l' => some "l"
  | 'r' => some "r"
  | 'j' => some "j"
  | 'w' => some "w"
  | 'm' => some "m"
  | 'n' => some "n"
  | 'ŋ' => some "ŋ"
  | _ => none

/-- One character's contribution in `wordToPhonemes`: vowels are looked up
first, then consonants; unknown characters contribute nothing. -/
def charPhoneme (c : Char) : Option String :=
  match vowelMapFirst c with
  | some p => some p
  | none => consonantMapFirst c

/-- `wordToPhonemes`: per-character lookup on the lowercased word. -/
def wordToPhonemes (word : String) : List String :=
  (word.toList.map Char.toLower).filterMap charPhoneme

/-- The `vowelPatterns` list of `isVowel`. -/
def vowelPatterns : List String :=
  ["æ", "ɑ:", "ʌ", "eɪ", "e", "ɛ", "i:", "ɪ", "aɪ", "ɒ", "ɔ:", "əʊ", "ʊ", "u:", "ju:", "ə"]

/-- `isVowel`. -/
def isVowel (phoneme : String) : Bool := vowelPatterns.contains phoneme

/-- `predictWordStress`: stress pattern from word-length buckets. -/
def predictWordStress (word : String) : List ℚ :=
  if word.length ≤ 2 then [1]
  else if word.length ≤ 4 then [1, 0]
  else [1, 0, 0]

/-- Letters of the `/[aeiouy]+/g` syllable regex. -/
def isVowelLetter (c : Char) : Bool :=
  c = 'a' || c = 'e' || c = 'i' || c = 'o' || c = 'u' || c = 'y'

/-- Number of maximal runs of vowel letters (the match count of
`/[aeiouy]+/g`); the Boolean tracks being inside a run. -/
def vowelRuns : List Char → Bool → ℕ
  | [], _ => 0
  | c :: rest, inRun =>
    if isVowelLetter c then (if inRun then 0 else 1) + vowelRuns rest true
    else vowelRuns rest false

/-- `countSyllables`: vowel-run count of the lowercased text, with the
`?.length || 1` fallback making the result at least 1. -/
def countSyllables (text : String) : ℕ :=
  max 1 (vowelRuns (text.toList.map Char.toLower) false)

/-- Leading-match test: does `pat` occur at the head of the character list? -/
def leadMatch : List Char → List Char → Bool
  | [], _ => true
  | _ :: _, [] => false
  | p :: ps, c :: cs => p = c && leadMatch ps cs

/-- Substring occurrence test for the literal regex fragments of the error
tables (all their patterns are plain alternations of literals). -/
def subMatch (pat : List Char) : List Char → Bool
  | [] => pat.isEmpty
  | c :: cs => leadMatch pat (c :: cs) || subMatch pat cs

/-- `pat` occurs as a substring of `s` (the `/pat/.test(s)` of a literal
pattern). -/
def containsSub (s pat : String) : Bool := subMatch pat.toList s.toList

/-- `levelSpecificErrors`, reduced to what `analyzePhoneme` reads from it:
per CEFR level, each entry's regex pattern as its list of literal
alternatives.  `this.levelSpecificErrors[level] || []` makes an unknown
level yield the empty list. -/
def levelSpecificErrorPatterns : String → List (List String)
  | "A1" => [["th"], ["r"], ["æ"]]
  | "A2" => [["ɪ", "i:"], ["w", "v"], ["ŋ"]]
  | "B1" => [["əʊ", "aʊ"], ["ʃ", "tʃ"], ["stress"]]
  | "B2" => [["ɜ:", "ə"], ["l", "r"], ["intonation"]]
  | "C1" => [["linking"], ["weak forms"], ["register"]]
  | "C2" => [["subtle distinctions"], ["discourse markers"], ["register variation"]]
  | _ => []

/-- Number of level-error patterns matching the phoneme; `analyzePhoneme`
subtracts 0.1 for each. -/
def matchCount (phoneme : String) (pats : List (List String)) : ℕ :=
  (pats.filter fun alts => alts.any fun a => containsSub phoneme a).length

/-- The `vowelTargets` table of `analyzeVowelFormants`: expected (F1, F2). -/
def vowelTargets : String → Option (ℚ × ℚ)
  | "æ" => some (700, 1700)
  | "ɑ:" => some (750, 1100)
  | "ʌ" => some (650, 1400)
  | "i:" => some (300, 2300)
  | "ɪ" => some (400, 2000)
  | "u:" => some (300, 900)
  | "ʊ" => some (400, 1100)
  | _ => none

/-- `analyzeVowelFormants`: relative (F1,F2) error against the target;
`!target || !formants.F1 || !formants.F2` (no table entry, or a zero
formant) returns the 0.5 default. -/
def analyzeVowelFormants (phoneme : String) (formants : Formants) : ℚ :=
  match vowelTargets phoneme with
  | none => 1/2
  | some target =>
    if formants.F1 = 0 ∨ formants.F2 = 0 then 1/2
    else
      let f1Error := |formants.F1 - target.1| / target.1
      let f2Error := |formants.F2 - target.2| / target.2
      max 0 (1 - (f1Error + f2Error) / 2)

/-- The feature snapshot `analyzePhoneme` reads.  The per-word snapshots
built by `extractWordFeatures` carry `{energy, pitch, formants}` and no
`spectral` field, hence the `Option`s (absent field = `none`). -/
structure PhonFeatures where
  energy : ℚ
  pitch : ℚ
  spectral : Option Spectral
  formants : Option Formants
deriving DecidableEq

/-- The fricative set of `analyzeConsonantFeatures`. -/
def fricativeSet : List String := ["s", "z", "ʃ", "ʒ", "f", "v", "θ", "ð"]

/-- The stop set of `analyzeConsonantFeatures`. -/
def stopSet : List String := ["p", "b", "t", "d", "k", "g"]

/-- `analyzeConsonantFeatures`. -/
def analyzeConsonantFeatures (phoneme : String) (features : PhonFeatures) : ℚ :=
  let accuracy : ℚ := 1/2
  let accuracy :=
    if fricativeSet.contains phoneme then
      match features.spectral with
      | some sp => if sp.centroid > 2000 then accuracy + 3/10 else accuracy
      | none => accuracy
    else accuracy
  let accuracy :=
    if stopSet.contains phoneme then
      (if features.energy > 2/10 then accuracy + 3/10 else accuracy)
    else accuracy
  min 1 accuracy

/-- The `substitutions` table of `simulateProducedPhoneme`. -/
def substitutionsFor : String → Option (List String)
  | "θ" => some ["s", "f", "t"]
  | "ð" => some ["d", "z", "v"]
  | "ɪ" => some ["i:", "e"]
  | "i:" => some ["ɪ", "eɪ"]
  | "æ" => some ["e", "ʌ"]
  | _ => none

/-- `simulateProducedPhoneme`; `draws 0` is the substitution coin,
`draws 1` picks the substitute index.  For draws in `[0,1)` the index
`⌊draws 1 · |subs|⌋` is always in range, so the `getD` default (the target
itself) is never taken. -/
def simulateProducedPhoneme (target : String) (accuracy : ℚ) (draws : ℕ → ℚ) : String :=
  if accuracy > 9/10 then target
  else
    match substitutionsFor target with
    | some subs =>
      if draws 0 > accuracy then subs.getD (⌊draws 1 * subs.length⌋.toNat) target
      else target
    | none => target

/-- `identifyPhonemeIssues` (the `level` argument is unused in the source). -/
def identifyPhonemeIssues (phoneme : String) (accuracy : ℚ) (level : String) :
    List String :=
  (if accuracy < 6/10 then ["Poor articulation"] else []) ++
  (if accuracy < 8/10 && isVowel phoneme then ["Vowel quality needs improvement"] else [])

/-- `generatePhonemeNeedback` (name as in the source). -/
def generatePhonemeNeedback (phoneme : String) (accuracy : ℚ) (level : String) : String :=
  if accuracy > 9/10 then "Excellent pronunciation"
  else if accuracy > 7/10 then "Good, with minor improvements needed"
  else if accuracy > 1/2 then "Needs practice - focus on tongue/lip position"
  else "Requires significant work - consider intensive practice"

/-- The record returned by `analyzePhoneme`. -/
structure PhonemeScore where
  phoneme : String
  accuracy : ℚ
  target : String
  produced : String
  issues : List String
  feedback : String
deriving DecidableEq

/-- `analyzePhoneme`.  Truthiness notes: `features.spectral &&
features.spectral.clarity` is present-and-nonzero; `features.formants` is an
object, hence truthy whenever present. -/
def analyzePhoneme (phoneme : String) (features : PhonFeatures) (level : String)
    (draws : ℕ → ℚ) : PhonemeScore :=
  let accuracy : ℚ := 1/2
  let accuracy :=
    if features.energy < 1/10 then accuracy - 3/10
    else if features.energy > 2/10 then accuracy + 2/10
    else accuracy
  let accuracy :=
    match features.spectral with
    | some sp => if sp.clarity ≠ 0 then accuracy + sp.clarity * (3/10) else accuracy
    | none => accuracy
  let accuracy :=
    if isVowel phoneme then
      match features.formants with
      | some fo => accuracy + analyzeVowelFormants phoneme fo * (4/10)
      | none => accuracy
    else accuracy
  let accuracy :=
    if !(isVowel phoneme) then accuracy + analyzeConsonantFeatures phoneme features * (4/10)
    else accuracy
  let accuracy := accuracy - (matchCount phoneme (levelSpecificErrorPatterns level) : ℚ) * (1/10)
  let finalAccuracy := max 0 (min 1 accuracy)
  { phoneme := phoneme
    accuracy := finalAccuracy
    target := phoneme
    produced := simulateProducedPhoneme phoneme finalAccuracy draws
    issues := identifyPhonemeIssues phoneme finalAccuracy level
    feedback := generatePhonemeNeedback phoneme finalAccuracy level }

/-- `simulateStressDetection`: the expected pattern scaled entry-wise by
`0.8 + Math.random()·0.4` (one draw per entry; the `features` argument is
unused in the source). -/
def simulateStressDetection (word : String) (features : AcousticFeatures)
    (draws : ℕ → ℚ) : List ℚ :=
  (predictWordStress word).mapIdx fun j s => s * (8/10 + draws j * (4/10))

/-- `compareStressPatterns`: equal length and entry-wise equal after
binarising at 0.5. -/
def compareStressPatterns (expected detected : List ℚ) : Bool :=
  if expected.length ≠ detected.length then false
  else (List.zip expected detected).all fun p =>
    (decide (p.1 > 1/2)) == (decide (p.2 > 1/2))

/-- One entry of the `stressPatterns` array of `analyzeStress`
(`correct` is the source's field name). -/
structure StressPattern where
  word : String
  expected : List ℚ
  detected : List ℚ
  correct : Bool
deriving DecidableEq

/-- The record returned by `analyzeStress`. -/
structure StressResult where
  accuracy : ℚ
  patterns : List StressPattern
  issues : List String
deriving DecidableEq

/-- `identifyStressIssues`. -/
def identifyStressIssues (patterns : List StressPattern) : List String :=
  let incorrectCount := (patterns.filter fun p => !p.correct).length
  if incorrectCount > 0 then [s!"{incorrectCount} words have incorrect stress patterns"]
  else []

/-- `analyzeStress`; `draws i` is the draw stream of the i-th word's
`simulateStressDetection` call. -/
def analyzeStress (features : AcousticFeatures) (text : String)
    (draws : ℕ → ℕ → ℚ) : StressResult :=
  let words := splitWs text
  let patterns := words.mapIdx fun i w =>
    let expected := predictWordStress w
    let detected := simulateStressDetection w features (draws i)
    { word := w, expected := expected, detected := detected,
      correct := compareStressPatterns expected detected : StressPattern }
  let correctStressCount := (patterns.filter fun p => p.correct).length
  let accuracy : ℚ :=
    if words.length > 0 then (correctStressCount : ℚ) / (words.length : ℚ) else 0
  { accuracy := accuracy, patterns := patterns, issues := identifyStressIssues patterns }

/-- The `timing` record of `analyzeRhythm` (`ratio` is the source's name for
the timing accuracy). -/
structure RhythmTiming where
  expected : ℚ
  actual : ℚ
  ratio : ℚ
deriving DecidableEq

/-- The record returned by `analyzeRhythm`.  `timing` is an `Option` because
`getFallbackAnalysis` puts the empty object `{}` there. -/
structure RhythmResult where
  accuracy : ℚ
  timing : Option RhythmTiming
  flow : ℚ
  issues : List String
deriving DecidableEq

/-- `identifyRhythmIssues`. -/
def identifyRhythmIssues (timingAccuracy flowScore : ℚ) : List String :=
  (if timingAccuracy < 7/10 then ["Speech tempo needs adjustment"] else []) ++
  (if flowScore < 7/10 then ["Work on speech flow and smoothness"] else [])

/-- `analyzeRhythm`; `draw` is the single `Math.random()` of the flow score.
When the actual duration is 0 the JavaScript quotient is `Infinity` (the
expected duration is ≥ 0.2 > 0), so `Math.min(1, ·) = 1`; that case is
written out because `ℚ` has no infinity. -/
def analyzeRhythm (features : AcousticFeatures) (text : String) (draw : ℚ) :
    RhythmResult :=
  let syllableCount := countSyllables text
  let expectedDuration : ℚ := (syllableCount : ℚ) * (2/10)
  let actualDuration := features.temporal.duration
  let timingAccuracy : ℚ :=
    if actualDuration = 0 then 1 else min 1 (expectedDuration / actualDuration)
  let flowScore := 8/10 + draw * (2/10)
  { accuracy := (timingAccuracy + flowScore) / 2
    timing := some ⟨expectedDuration, actualDuration, timingAccuracy⟩
    flow := flowScore
    issues := identifyRhythmIssues timingAccuracy flowScore }

/-- The `contour` record of `analyzeIntonation`; `matched` models the
source's `match` field (a Lean keyword). -/
structure IntonationContour where
  expected : String
  detected : String
  matched : Bool
deriving DecidableEq

/-- The record returned by `analyzeIntonation`.  `contour` is an `Option`
because `getFallbackAnalysis` puts the empty object `{}` there. -/
structure IntonationResult where
  accuracy : ℚ
  contour : Option IntonationContour
  expressiveness : ℚ
  issues : List String
deriving DecidableEq

/-- `identifyIntonationIssues`. -/
def identifyIntonationIssues (contourAccuracy expressiveness : ℚ) : List String :=
  (if contourAccuracy < 7/10 then ["Practice question and statement intonation patterns"]
   else []) ++
  (if expressiveness < 7/10 then ["Add more variation and expression to speech"] else [])

/-- `simulateContourDetection`: ignores the acoustic features entirely; one
`Math.random()` draw decides the detected contour. -/
def simulateContourDetection (features : AcousticFeatures) (isQuestion : Bool)
    (draw : ℚ) : String :=
  if isQuestion then (if draw > 2/10 then "rising" else "falling")
  else (if draw > 3/10 then "falling" else "rising")

/-- `analyzeIntonation`; `draws 0` feeds `simulateContourDetection` and
`draws 1` the expressiveness jitter.  `isQuestion` is
`text.includes('?')` — containment anywhere, not a suffix test. -/
def analyzeIntonation (features : AcousticFeatures) (text : String)
    (draws : ℕ → ℚ) : IntonationResult :=
  let isQuestion := text.toList.contains '?'
  let expectedContour := if isQuestion then "rising" else "falling"
  let detectedContour := simulateContourDetection features isQuestion (draws 0)
  let contourAccuracy : ℚ := if expectedContour == detectedContour then 9/10 else 6/10
  let expressiveness := 7/10 + draws 1 * (3/10)
  { accuracy := (contourAccuracy + expressiveness) / 2
    contour := some ⟨expectedContour, detectedContour, expectedContour == detectedContour⟩
    expressiveness := expressiveness
    issues := identifyIntonationIssues contourAccuracy expressiveness }

/-- `extractWordFeatures` (the `progress` local is unused in the source);
two draws per word; the snapshot has no `spectral` field. -/
def extractWordFeatures (features : AcousticFeatures) (index totalWords : ℕ)
    (draws : ℕ → ℚ) : PhonFeatures where
  energy := features.energy.rms * (8/10 + draws 0 * (4/10))
  pitch := features.fundamental.mean * (9/10 + draws 1 * (2/10))
  spectral := none
  formants := some features.formants

/-- The punctuation class `[.,!?;:]` of `segmentPhonetically`. -/
def isPunctChar (c : Char) : Bool :=
  c = '.' || c = ',' || c = '!' || c = '?' || c = ';' || c = ':'

/-- `word.replace(/[.,!?;:]/, '')`: with no global flag, only the FIRST
punctuation character is removed. -/
def removeFirstPunct : List Char → List Char
  | [] => []
  | c :: rest => if isPunctChar c then rest else c :: removeFirstPunct rest

/-- One element of the segment list built by `segmentPhonetically`. -/
structure PhoneticSegment where
  word : String
  phonemes : List String
  startTime : ℚ
  endTime : ℚ
  stress : List ℚ
  features : PhonFeatures
deriving DecidableEq

/-- `segmentPhonetically`; `draws i` is the draw stream of word i's
`extractWordFeatures` call. -/
def segmentPhonetically (features : AcousticFeatures) (text : String)
    (draws : ℕ → ℕ → ℚ) : List PhoneticSegment :=
  let words := splitWs (String.mk (text.toList.map Char.toLower))
  words.mapIdx fun i w =>
    let word := String.mk (removeFirstPunct w.toList)
    { word := word
      phonemes := wordToPhonemes word
      startTime := ((i : ℚ) / (words.length : ℚ)) * features.temporal.duration
      endTime := (((i : ℚ) + 1) / (words.length : ℚ)) * features.temporal.duration
      stress := predictWordStress word
      features := extractWordFeatures features i words.length (draws i) }

/-- Per-class aggregation record of `analyzeSegmentals`. -/
structure ClassResult where
  count : ℕ
  accuracy : ℚ
  issues : List String
  details : List PhonemeScore
deriving DecidableEq

/-- The record returned by `analyzeSegmentals`. -/
structure SegmentalResult where
  vowels : ClassResult
  consonants : ClassResult
  overall : ℚ
deriving DecidableEq

/-- `calculateAverageAccuracy`. -/
def calculateAverageAccuracy (analyses : List PhonemeScore) : ℚ :=
  if analyses.length = 0 then 0
  else (analyses.map fun a => a.accuracy).sum / (analyses.length : ℚ)

/-- `identifyVowelIssues` (the `level` argument is unused in the source). -/
def identifyVowelIssues (vowelAnalyses : List PhonemeScore) (level : String) :
    List String :=
  let lowCount := (vowelAnalyses.filter fun v => v.accuracy < 7/10).length
  if lowCount > 0 then [s!"{lowCount} vowel sounds need improvement"] else []

/-- `identifyConsonantIssues` (the `level` argument is unused in the source). -/
def identifyConsonantIssues (consonantAnalyses : List PhonemeScore) (level : String) :
    List String :=
  let lowCount := (consonantAnalyses.filter fun c => c.accuracy < 7/10).length
  if lowCount > 0 then [s!"{lowCount} consonant sounds need work"] else []

/-- All (phoneme, segment-features) pairs of a segment list, in the order of
the nested loops of `analyzeSegmentals`. -/
def segmentPhonemePairs (segments : List PhoneticSegment) : List (String × PhonFeatures) :=
  segments.flatMap fun seg => seg.phonemes.map fun p => (p, seg.features)

/-- `analyzeSegmentals`; `draws k` is the draw stream of the k-th analysed
phoneme.  The vowel/consonant split keys on `isVowel` of the phoneme, and
the overall accuracy averages over all phonemes. -/
def analyzeSegmentals (segments : List PhoneticSegment) (level : String)
    (draws : ℕ → ℕ → ℚ) : SegmentalResult :=
  let pairs := segmentPhonemePairs segments
  let analyses := pairs.mapIdx fun k pr => analyzePhoneme pr.1 pr.2 level (draws k)
  let vowelAnalysis := analyses.filter fun a => isVowel a.phoneme
  let consonantAnalysis := analyses.filter fun a => !(isVowel a.phoneme)
  let totalPhonemes := analyses.length
  let overallAccuracy : ℚ :=
    if totalPhonemes > 0 then (analyses.map fun a => a.accuracy).sum / (totalPhonemes : ℚ)
    else 0
  { vowels :=
      { count := vowelAnalysis.length
        accuracy := calculateAverageAccuracy vowelAnalysis
        issues := identifyVowelIssues vowelAnalysis level
        details := vowelAnalysis }
    consonants :=
      { count := consonantAnalysis.length
        accuracy := calculateAverageAccuracy consonantAnalysis
        issues := identifyConsonantIssues consonantAnalysis level
        details := consonantAnalysis }
    overall := overallAccuracy * 100 }

/-- The three random streams consumed by `analyzeSuprasegmentals`. -/
structure SupraDraws where
  stress : ℕ → ℕ → ℚ
  rhythm : ℚ
  inton : ℕ → ℚ

/-- The record returned by `analyzeSuprasegmentals` (it repackages the three
analyses field-for-field, so the same record types are reused). -/
structure SuprasegmentalResult where
  stress : StressResult
  rhythm : RhythmResult
  intonation : IntonationResult
  overall : ℚ
deriving DecidableEq

/-- `analyzeSuprasegmentals` (the `level` argument is unused in the source);
overall = mean of the three accuracies × 100. -/
def analyzeSuprasegmentals (features : AcousticFeatures) (text : String)
    (level : String) (draws : SupraDraws) : SuprasegmentalResult :=
  let stressAnalysis := analyzeStress features text draws.stress
  let rhythmAnalysis := analyzeRhythm features text draws.rhythm
  let intonationAnalysis := analyzeIntonation features text draws.inton
  { stress := stressAnalysis
    rhythm := rhythmAnalysis
    intonation := intonationAnalysis
    overall :=
      (stressAnalysis.accuracy + rhythmAnalysis.accuracy + intonationAnalysis.accuracy)
        / 3 * 100 }

/-- The `feedback` record of `generateDetailedFeedback`. -/
structure FeedbackBundle where
  strengths : List String
  improvements : List String
  specificTips : List String
  levelAppropriate : List String
deriving DecidableEq

/-- `getLevelSpecificFeedback` (the two result arguments are unused in the
source's switch). -/
def getLevelSpecificFeedback (level : String) (segmental : SegmentalResult)
    (suprasegmental : SuprasegmentalResult) : List String :=
  if level = "A1" ∨ level = "A2" then
    ["Focus on clear articulation of individual sounds",
     "Practice common consonant and vowel sounds"]
  else if level = "B1" ∨ level = "B2" then
    ["Work on word stress patterns and connected speech",
     "Practice intonation in questions and statements"]
  else if level = "C1" ∨ level = "C2" then
    ["Focus on subtle pronunciation features and natural rhythm",
     "Work on register-appropriate pronunciation variations"]
  else []

/-- `generateDetailedFeedback`. -/
def generateDetailedFeedback (segmental : SegmentalResult)
    (suprasegmental : SuprasegmentalResult) (level : String) : FeedbackBundle where
  strengths :=
    (if segmental.vowels.accuracy > 8/10 then ["Excellent vowel pronunciation"] else []) ++
    (if segmental.consonants.accuracy > 8/10 then ["Strong consonant articulation"] else []) ++
    (if suprasegmental.stress.accuracy > 8/10 then ["Good word stress patterns"] else [])
  improvements :=
    (if segmental.vowels.accuracy < 7/10 then ["Focus on vowel clarity and length"] else []) ++
    (if segmental.consonants.accuracy < 7/10 then ["Work on consonant precision"] else []) ++
    (if suprasegmental.rhythm.accuracy < 7/10 then ["Improve speech rhythm and timing"] else [])
  specificTips :=
    (if segmental.vowels.accuracy < 7/10 then
      ["Practice vowel sounds in isolation before combining in words"] else []) ++
    (if segmental.consonants.accuracy < 7/10 then
      ["Pay attention to tongue and lip positions for each consonant"] else []) ++
    (if suprasegmental.rhythm.accuracy < 7/10 then
      ["Practice with a metronome or rhythm exercises"] else [])
  levelAppropriate := getLevelSpecificFeedback level segmental suprasegmental

/-- `calculateOverallScore`: 0.7·segmental + 0.3·suprasegmental. -/
def calculateOverallScore (segmental : SegmentalResult)
    (suprasegmental : SuprasegmentalResult) : ℚ :=
  segmental.overall * (7/10) + suprasegmental.overall * (3/10)

/-- The record returned by `analyzePhonetics` / `getFallbackAnalysis`. -/
structure PhoneticAnalysisResult where
  overall : ℚ
  segmental : SegmentalResult
  suprasegmental : SuprasegmentalResult
  feedback : FeedbackBundle
  level : String
  text : String
  timestamp : ℤ
  isBasicAnalysis : Bool
deriving DecidableEq

/-- All random streams one `analyzePhonetics` run consumes. -/
structure PipelineDraws where
  word : ℕ → ℕ → ℚ
  phon : ℕ → ℕ → ℚ
  supra : SupraDraws

/-- `analyzePhonetics`.  `decoded` is `some f` when the inner try of
`extractAcousticFeatures` succeeds with features `f` and `none` when it
throws (unreadable audio bytes) — in the latter case the catch inside
`extractAcousticFeatures` already returns `getFallbackFeatures`, so the
pipeline proceeds normally.  The downstream stages are total functions, so
the *outer* catch of `analyzePhonetics` (which would return
`getFallbackAnalysis`) is unreachable, and the result always carries
`isBasicAnalysis := false`.  `now` models `Date.now()`. -/
def analyzePhonetics (decoded : Option AcousticFeatures) (text level : String)
    (draws : PipelineDraws) (now : ℤ) : PhoneticAnalysisResult :=
  let acousticFeatures := extractAcousticFeaturesR decoded
  let phoneticSegments := segmentPhonetically acousticFeatures text draws.word
  let segmentalAnalysis := analyzeSegmentals phoneticSegments level draws.phon
  let suprasegmentalAnalysis :=
    analyzeSuprasegmentals acousticFeatures text level draws.supra
  { overall := calculateOverallScore segmentalAnalysis suprasegmentalAnalysis
    segmental := segmentalAnalysis
    suprasegmental := suprasegmentalAnalysis
    feedback := generateDetailedFeedback segmentalAnalysis suprasegmentalAnalysis level
    level := level
    text := text
    timestamp := now
    isBasicAnalysis := false }

/-- `getFallbackAnalysis`: the fixed basic-analysis record the outer catch
of `analyzePhonetics` would return; the `{}` placeholder objects of its
`timing`/`contour` fields are `none`. -/
def getFallbackAnalysis (text level : String) (now : ℤ) : PhoneticAnalysisResult where
  overall := 75
  segmental :=
    { vowels := ⟨5, 75/100, [], []⟩
      consonants := ⟨8, 76/100, [], []⟩
      overall := 755/10 }
  suprasegmental :=
    { stress := ⟨7/10, [], []⟩
      rhythm := ⟨75/100, none, 75/100, []⟩
      intonation := ⟨73/100, none, 73/100, []⟩
      overall := 727/10 }
  feedback :=
    { strengths := ["Basic pronunciation is understandable"]
      improvements := ["Continue practicing for more detailed feedback"]
      specificTips := ["Record in a quiet environment for better analysis"]
      levelAppropriate := ["Keep practicing at your current level"] }
  level := level
  text := text
  timestamp := now
  isBasicAnalysis := true

/-! ## Signal-processing helpers (`extractF0`, `extractEnergyFeatures`) -/

/-- Correlation and norm of `calculateF0Autocorrelation` at one lag:
Σ w[i]·w[i+p] and Σ w[i]² over 0 ≤ i < |w| − p. -/
def corrAt (w : List ℚ) (p : ℕ) : ℚ × ℚ :=
  (((w.zip (w.drop p)).map fun q => q.1 * q.2).sum,
   ((w.take (w.length - p)).map fun x => x * x).sum)

/-- One step of the best-lag scan of `calculateF0Autocorrelation`: keep the
lag when its norm is positive and its normalised correlation strictly beats
the maximum so far. -/
def f0Step (w : List ℚ) (state : ℚ × ℕ) (p : ℕ) : ℚ × ℕ :=
  let c := corrAt w p
  if c.2 > 0 ∧ c.1 / c.2 > state.1 then (c.1 / c.2, p) else state

/-- `calculateF0Autocorrelation`: scan lags from ⌊sampleRate/500⌋ (500 Hz)
up to ⌊sampleRate/50⌋ (50 Hz) and return sampleRate / bestLag, or 0 when no
lag won the scan. -/
def calculateF0Autocorrelation (window : List ℚ) (sampleRate : ℕ) : ℚ :=
  let minPeriod := sampleRate / 500
  let maxPeriod := sampleRate / 50
  let best :=
    (List.range' minPeriod (maxPeriod + 1 - minPeriod)).foldl (f0Step window) (0, 0)
  if best.2 > 0 then (sampleRate : ℚ) / (best.2 : ℚ) else 0

/-- The window slices `[i, i+windowSize)` of the extraction loops, for
i = 0, windowSize, 2·windowSize, … while `i < length − windowSize`. -/
def slidingWindows (samples : List ℚ) (windowSize : ℕ) : List (List ℚ) :=
  let n := samples.length
  let count := if windowSize < n then (n - windowSize - 1) / windowSize + 1 else 0
  (List.range count).map fun k => (samples.drop (k * windowSize)).take windowSize

/-- `extractF0`: ⌊sampleRate·0.05⌋-sample windows, per-window
autocorrelation pitch, keeping the positive (voiced) values; mean and
max−min range over the kept values, 0 on an empty list. -/
def extractF0 (channelData : List ℚ) (sampleRate : ℕ) : Fundamental :=
  let windowSize := sampleRate * 5 / 100
  let f0Values :=
    ((slidingWindows channelData windowSize).map
      fun w => calculateF0Autocorrelation w sampleRate).filter fun f0 => f0 > 0
  { mean := if f0Values.length > 0 then f0Values.sum / (f0Values.length : ℚ) else 0
    range :=
      match f0Values with
      | [] => 0
      | v :: vs => vs.foldl max v - vs.foldl min v
    values := f0Values }

/-- The record returned by `extractEnergyFeatures`; `rms` is a real number
because of `Math.sqrt`. -/
structure EnergyExtract where
  rms : ℝ
  peak : ℚ

/-- `extractEnergyFeatures`: RMS = √(Σ|x|²/n), peak = running max of |x|. -/
noncomputable def extractEnergyFeatures (channelData : List ℚ) : EnergyExtract where
  rms :=
    Real.sqrt ((((channelData.map fun x => |x| * |x|).sum : ℚ) : ℝ) /
      ((channelData.length : ℕ) : ℝ))
  peak := channelData.foldl (fun pk x => if |x| > pk then |x| else pk) 0

/-- C9: the accuracy of every `analyzePhoneme` result lies in [0,1], for
every phoneme, feature record (however large or negative its energy,
clarity and formant entries), CEFR level and random stream — the final
clamp `max(0, min(1, ·))` guarantees it. -/
theorem C9_phoneme_accuracy_in_unit (phoneme : String) (features : PhonFeatures)
    (level : String) (draws : ℕ → ℚ) :
    0 ≤ (analyzePhoneme phoneme features level draws).accuracy ∧
      (analyzePhoneme phoneme features level draws).accuracy ≤ 1 := by
  simp only [analyzePhoneme]
  exact ⟨le_max_left 0 _, max_le zero_le_one (min_le_left 1 _)⟩

/-- C8 counterexample: on the text "a? b", which contains '?' but does not
end with it, the expected contour computed by `analyzeIntonation` is
"rising", while the claim (expected = "rising" iff the text ENDS in '?')
demands "falling". -/
theorem C8_counterexample :
    ((analyzeIntonation getFallbackFeatures "a? b" fun _ => 0).contour.map
        fun c => c.expected) = some "rising" ∧
      "a? b".toList.getLast? ≠ some '?' := by
  constructor
  · rfl
  · decide

/-- C8 amended: the expected contour is "rising" exactly when the text
CONTAINS '?' anywhere (`text.includes('?')`), and the detected contour is
decided purely by the random draw and the question flag — it is identical
for any two feature records, so it is not an estimate of the pitch trend of
the recording. -/
theorem C8_amended_intonation_contour (features features2 : AcousticFeatures)
    (text : String) (draws : ℕ → ℚ) :
    ((analyzeIntonation features text draws).contour.map fun c => c.expected) =
        some (if text.toList.contains '?' then "rising" else "falling") ∧
      ((analyzeIntonation features text draws).contour.map fun c => c.detected) =
        ((analyzeIntonation features2 text draws).contour.map fun c => c.detected) := by
  exact ⟨rfl, rfl⟩

/-- C5 counterexample: on undecodable audio (`none`), the pipeline runs on
the fallback features and returns a result with `isBasicAnalysis = false` —
not `true` as the claim states. -/
theorem C5_counterexample :
    (analyzePhonetics none "the cat sat" "A1"
        ⟨fun _ _ => 0, fun _ _ => 0, ⟨fun _ _ => 0, 0, fun _ => 0⟩⟩ 0).isBasicAnalysis
      = false := by
  rfl

/-- C5 amended: on a decode failure the extractor returns the fixed fallback
features — which are not all-zero (duration 1, rms = peak = 0.01) — the
pipeline still runs and its result carries `isBasicAnalysis = false`;
the `isBasicAnalysis = true` record with vowels.accuracy = 0.75 and
consonants.accuracy = 0.76 is `getFallbackAnalysis`, which only an exception
in a downstream stage (unreachable for total stages) would produce. -/
theorem C5_amended_decode_fallback (text level : String) (draws : PipelineDraws)
    (now : ℤ) :
    extractAcousticFeaturesR none = getFallbackFeatures ∧
      getFallbackFeatures.temporal.duration = 1 ∧
      getFallbackFeatures.energy.rms = 1/100 ∧
      (analyzePhonetics none text level draws now).isBasicAnalysis = false ∧
      (getFallbackAnalysis text level now).isBasicAnalysis = true ∧
      (getFallbackAnalysis text level now).segmental.vowels.accuracy = 75/100 ∧
      (getFallbackAnalysis text level now).segmental.consonants.accuracy = 76/100 := by
  exact ⟨rfl, rfl, rfl, rfl, rfl, rfl, rfl⟩

/-- `splitWsAux` always yields at least one piece. -/
theorem splitWsAux_ne_nil (l : List Char) (acc : List Char) (b : Bool) :
    splitWsAux l acc b ≠ [] := by
  induction l generalizing acc b with
  | nil => simp [splitWsAux]
  | cons c cs ih =>
    unfold splitWsAux
    split_ifs
    · exact ih acc true
    · simp
    · exact ih (c :: acc) false

/-- `text.split(/\s+/)` is never empty. -/
theorem splitWs_length_pos (s : String) : 0 < (splitWs s).length := by
  unfold splitWs
  rw [List.length_map]
  cases h : splitWsAux s.toList [] false with
  | nil => exact absurd h (splitWsAux_ne_nil _ _ _)
  | cons a l => simp

/-- Scaling the expected stress pattern by 0.8 + draw·0.4 with nonnegative
draws preserves binarisation at 0.5, so the comparison always succeeds. -/
theorem compareStress_scaled (w : String) (features : AcousticFeatures)
    (dr : ℕ → ℚ) (h : ∀ j, 0 ≤ dr j) :
    compareStressPatterns (predictWordStress w)
      (simulateStressDetection w features dr) = true := by
  unfold simulateStressDetection predictWordStress
  split_ifs <;>
    simp only [compareStressPatterns, List.mapIdx_cons, List.mapIdx_nil,
      List.zip_cons_cons, List.zip_nil_right, List.all_cons, List.all_nil] <;>
    norm_num <;>
    nlinarith [h 0]

/-- A property holding for every value of an index-aware map holds for every
member of `List.mapIdx`. -/
theorem mapIdx_mem_prop {α β : Type} (P : β → Prop) :
    ∀ (l : List α) (f : ℕ → α → β), (∀ i a, P (f i a)) → ∀ b ∈ List.mapIdx f l, P b := by
  intro l
  induction l with
  | nil => intro f _ b hb; simp [List.mapIdx_nil] at hb
  | cons a t ih =>
    intro f hf b hb
    rw [List.mapIdx_cons] at hb
    rcases List.mem_cons.mp hb with h | h
    · rw [h]; exact hf 0 a
    · exact ih _ (fun i x => hf (i+1) x) b h

/-- C10: for every text, feature record and random streams with draws in
[0,1), `analyzeStress` returns stress accuracy exactly 1 with an empty
issues list — each detected stress value is the expected one scaled by a
factor in [0.8, 1.2), which binarising at 0.5 cannot change, so every word
matches. -/
theorem C10_stress_accuracy_always_one (features : AcousticFeatures) (text : String)
    (draws : ℕ → ℕ → ℚ) (hd : ∀ i j, 0 ≤ draws i j ∧ draws i j < 1) :
    (analyzeStress features text draws).accuracy = 1 ∧
      (analyzeStress features text draws).issues = [] := by
  have hcor : ∀ q ∈ (splitWs text).mapIdx (fun i w =>
      ({ word := w, expected := predictWordStress w,
         detected := simulateStressDetection w features (draws i),
         correct := compareStressPatterns (predictWordStress w)
           (simulateStressDetection w features (draws i)) } : StressPattern)),
      q.correct = true :=
    mapIdx_mem_prop _ _ _
      (fun i w => compareStress_scaled w features (draws i) (fun j => (hd i j).1))
  have hlenpos := splitWs_length_pos text
  constructor
  · simp only [analyzeStress]
    rw [List.filter_eq_self.mpr hcor, List.length_mapIdx, if_pos hlenpos]
    exact div_self (by exact_mod_cast hlenpos.ne')
  · simp only [analyzeStress, identifyStressIssues]
    rw [List.filter_eq_nil_iff.mpr (fun a ha => by simp [hcor a ha])]
    simp

/-- Witness for C10: the all-zero draw stream on the fixture sentence. -/
theorem C10_witness :
    (∀ i j : ℕ, 0 ≤ (fun (_ _ : ℕ) => (0:ℚ)) i j ∧ (fun (_ _ : ℕ) => (0:ℚ)) i j < 1) ∧
      (analyzeStress getFallbackFeatures "the cat sat" fun _ _ => 0).accuracy = 1 ∧
      (analyzeStress getFallbackFeatures "the cat sat" fun _ _ => 0).issues = [] :=
  ⟨fun _ _ => ⟨le_refl 0, by norm_num⟩,
   C10_stress_accuracy_always_one getFallbackFeatures "the cat sat" _
     (fun _ _ => ⟨le_refl 0, by norm_num⟩)⟩

/-- A concrete one-word segment ("i" → phoneme "ɪ") used to exhibit the
randomness of the segmental scorer: its 0.7 accuracy is ≤ 0.9, so
`simulateProducedPhoneme` consults the random stream. -/
def segC4 : PhoneticSegment :=
  { word := "i", phonemes := ["ɪ"], startTime := 0, endTime := 1,
    stress := [1], features := ⟨15/100, 0, none, some ⟨0, 0, 0⟩⟩ }

set_option maxRecDepth 4000 in
/-- With all-zero draws the phoneme "ɪ" is reported as produced verbatim. -/
theorem segC4_produced_zero :
    (analyzeSegmentals [segC4] "A1" fun _ _ => 0).vowels.details.map
      (fun a => a.produced) = ["ɪ"] := by
  have hv : isVowel "ɪ" = true := by decide
  have hm : matchCount "ɪ" (levelSpecificErrorPatterns "A1") = 0 := by decide
  norm_num [analyzeSegmentals, segmentPhonemePairs, segC4, analyzePhoneme,
    analyzeVowelFormants, vowelTargets, simulateProducedPhoneme, substitutionsFor,
    hv, hm, List.mapIdx_cons, List.mapIdx_nil, List.filter_cons, List.filter_nil]

set_option maxRecDepth 4000 in
/-- With draws 0.8 the same call substitutes "e" for "ɪ". -/
theorem segC4_produced_biased :
    (analyzeSegmentals [segC4] "A1" fun _ _ => 4/5).vowels.details.map
      (fun a => a.produced) = ["e"] := by
  have hv : isVowel "ɪ" = true := by decide
  have hm : matchCount "ɪ" (levelSpecificErrorPatterns "A1") = 0 := by decide
  norm_num [analyzeSegmentals, segmentPhonemePairs, segC4, analyzePhoneme,
    analyzeVowelFormants, vowelTargets, simulateProducedPhoneme, substitutionsFor,
    hv, hm, List.mapIdx_cons, List.mapIdx_nil, List.filter_cons, List.filter_nil]

/-- C4: the shipped scorers are NOT deterministic functions of their stated
inputs: on identical (segments, level) two runs of `analyzeSegmentals`
return different per-phoneme `produced` fields, and on identical
(features, text, level) two runs of `analyzeSuprasegmentals` return
different rhythm flow/accuracy values — the difference coming solely from
the `Math.random()` streams. -/
theorem C4_scorers_nondeterministic :
    analyzeSegmentals [segC4] "A1" (fun _ _ => 0) ≠
        analyzeSegmentals [segC4] "A1" (fun _ _ => 4/5) ∧
      analyzeSuprasegmentals getFallbackFeatures "a" "A1" ⟨fun _ _ => 0, 0, fun _ => 0⟩ ≠
        analyzeSuprasegmentals getFallbackFeatures "a" "A1"
          ⟨fun _ _ => 0, 4/5, fun _ => 0⟩ := by
  constructor
  · intro h
    have h2 := congrArg (fun r => r.vowels.details.map fun a => a.produced) h
    dsimp only at h2
    rw [segC4_produced_zero, segC4_produced_biased] at h2
    exact absurd h2 (by decide)
  · intro h
    have h2 := congrArg (fun r => r.rhythm.flow) h
    dsimp only at h2
    have e1 : (analyzeSuprasegmentals getFallbackFeatures "a" "A1"
        ⟨fun _ _ => 0, 0, fun _ => 0⟩).rhythm.flow = 8/10 + 0 * (2/10) := rfl
    have e2 : (analyzeSuprasegmentals getFallbackFeatures "a" "A1"
        ⟨fun _ _ => 0, 4/5, fun _ => 0⟩).rhythm.flow = 8/10 + 4/5 * (2/10) := rfl
    rw [e1, e2] at h2
    norm_num at h2

/-- The best lag kept by the autocorrelation scan is the initial one or a
member of the scanned lag list. -/
theorem f0_foldl_bestLag (w : List ℚ) : ∀ (l : List ℕ) (s : ℚ × ℕ),
    (l.foldl (f0Step w) s).2 = s.2 ∨ (l.foldl (f0Step w) s).2 ∈ l := by
  intro l
  induction l with
  | nil => intro s; exact Or.inl rfl
  | cons p ps ih =>
    intro s
    rw [List.foldl_cons]
    rcases ih (f0Step w s p) with h | h
    · rw [h]
      by_cases hc : (corrAt w p).2 > 0 ∧ (corrAt w p).1 / (corrAt w p).2 > s.1
      · simp [f0Step, hc]
      · simp [f0Step, hc]
    · exact Or.inr (List.mem_cons_of_mem p h)

/-- Each per-window pitch estimate is 0 (unvoiced) or `sampleRate/p` for a
winning lag `p` with `max 1 ⌊sampleRate/500⌋ ≤ p ≤ ⌊sampleRate/50⌋`: hence
at least 50 Hz, and at most `sampleRate / max(1, ⌊sampleRate/500⌋)`. -/
theorem calculateF0_zero_or_bounds (w : List ℚ) (sr : ℕ) (hsr : 0 < sr) :
    calculateF0Autocorrelation w sr = 0 ∨
      (50 ≤ calculateF0Autocorrelation w sr ∧
        calculateF0Autocorrelation w sr ≤ (sr : ℚ) / ((max 1 (sr / 500) : ℕ) : ℚ)) := by
  unfold calculateF0Autocorrelation
  set best := (List.range' (sr/500) (sr/50 + 1 - sr/500)).foldl (f0Step w) (0, 0) with hbest
  by_cases hp : best.2 > 0
  · right
    rw [if_pos hp]
    have hmem := f0_foldl_bestLag w (List.range' (sr/500) (sr/50 + 1 - sr/500)) (0, 0)
    rw [← hbest] at hmem
    rcases hmem with h0 | hin
    · exact absurd h0 (by omega)
    · have hb := List.mem_range'_1.mp hin
      have hminmax : sr/500 ≤ sr/50 := Nat.div_le_div_left (by norm_num) (by norm_num)
      have hub : best.2 ≤ sr/50 := by omega
      have hlb : sr/500 ≤ best.2 := hb.1
      have h1 : 1 ≤ best.2 := hp
      have hq : (0:ℚ) < (best.2 : ℚ) := by exact_mod_cast hp
      constructor
      · rw [le_div_iff₀ hq]
        have hn : 50 * best.2 ≤ sr := by
          have h50 : best.2 * 50 ≤ (sr/50) * 50 := Nat.mul_le_mul_right 50 hub
          have hds : (sr/50) * 50 ≤ sr := Nat.div_mul_le_self sr 50
          omega
        exact_mod_cast hn
      · have hmle : max 1 (sr/500) ≤ best.2 := max_le h1 hlb
        have hmpos : (0:ℚ) < ((max 1 (sr / 500) : ℕ) : ℚ) := by
          exact_mod_cast Nat.lt_of_lt_of_le Nat.zero_lt_one (le_max_left 1 (sr/500))
        have hc2 : ((max 1 (sr / 500) : ℕ) : ℚ) ≤ (best.2 : ℚ) := by exact_mod_cast hmle
        gcongr
  · left
    exact if_neg hp

/-- Every kept (voiced) F0 value lies between 50 Hz and
`sampleRate / max(1, ⌊sampleRate/500⌋)`. -/
theorem extractF0_value_bounds (cd : List ℚ) (sr : ℕ) (hsr : 0 < sr) :
    ∀ v ∈ (extractF0 cd sr).values,
      50 ≤ v ∧ v ≤ (sr : ℚ) / ((max 1 (sr / 500) : ℕ) : ℚ) := by
  intro v hv
  have hvq : (extractF0 cd sr).values = ((slidingWindows cd (sr * 5 / 100)).map
      fun w => calculateF0Autocorrelation w sr).filter fun f0 => f0 > 0 := rfl
  rw [hvq, List.mem_filter, List.mem_map] at hv
  obtain ⟨⟨w, _, rfl⟩, hpos⟩ := hv
  rcases calculateF0_zero_or_bounds w sr hsr with h0 | hb
  · rw [h0] at hpos; norm_num at hpos
  · exact hb

/-- Sum bounds for a list with entry-wise bounds. -/
theorem list_sum_bounds (l : List ℚ) (a b : ℚ) (h : ∀ x ∈ l, a ≤ x ∧ x ≤ b) :
    a * l.length ≤ l.sum ∧ l.sum ≤ b * l.length := by
  constructor
  · have hs := List.card_nsmul_le_sum l a (fun x hx => (h x hx).1)
    rw [nsmul_eq_mul] at hs
    linarith [hs]
  · have hs := List.sum_le_card_nsmul l b (fun x hx => (h x hx).2)
    rw [nsmul_eq_mul] at hs
    linarith [hs]

/-- The mean F0 is 0 (no voiced window) or within the per-value bounds. -/
theorem extractF0_mean_bounds (cd : List ℚ) (sr : ℕ) (hsr : 0 < sr) :
    (extractF0 cd sr).mean = 0 ∨
      (50 ≤ (extractF0 cd sr).mean ∧
        (extractF0 cd sr).mean ≤ (sr : ℚ) / ((max 1 (sr / 500) : ℕ) : ℚ)) := by
  have hvals := extractF0_value_bounds cd sr hsr
  have hmean : (extractF0 cd sr).mean =
      if (extractF0 cd sr).values.length > 0 then
        (extractF0 cd sr).values.sum / ((extractF0 cd sr).values.length : ℚ)
      else 0 := rfl
  by_cases hlen : (extractF0 cd sr).values.length > 0
  · right
    rw [hmean, if_pos hlen]
    have hsum := list_sum_bounds _ 50 _ hvals
    have hl0 : (0:ℚ) < ((extractF0 cd sr).values.length : ℚ) := by exact_mod_cast hlen
    constructor
    · rw [le_div_iff₀ hl0]; linarith [hsum.1]
    · rw [div_le_iff₀ hl0]; linarith [hsum.2]
  · left
    rw [hmean, if_neg hlen]

/-- The running peak of `extractEnergyFeatures` never drops below its
starting value 0. -/
theorem foldl_peak_nonneg (l : List ℚ) : ∀ pk, 0 ≤ pk →
    0 ≤ l.foldl (fun pk x => if |x| > pk then |x| else pk) pk := by
  induction l with
  | nil => intro pk h; exact h
  | cons x xs ih =>
    intro pk h
    rw [List.foldl_cons]
    apply ih
    dsimp only
    split_ifs
    · exact abs_nonneg x
    · exact h

/-- C6 amended: for every PCM buffer and positive sample rate, RMS and peak
are nonnegative as claimed, and every per-window F0 (hence every stored
voiced value and the aggregate mean) is 0 or lies in
[50, sampleRate/max(1, ⌊sampleRate/500⌋)].  The claimed fixed 500 Hz
ceiling is exceeded whenever ⌊sampleRate/500⌋ rounds down. -/
theorem C6_amended_extraction_bounds (channelData : List ℚ) (sampleRate : ℕ)
    (hsr : 0 < sampleRate) :
    0 ≤ (extractEnergyFeatures channelData).rms ∧
      0 ≤ (extractEnergyFeatures channelData).peak ∧
      (∀ w ∈ slidingWindows channelData (sampleRate * 5 / 100),
        calculateF0Autocorrelation w sampleRate = 0 ∨
          (50 ≤ calculateF0Autocorrelation w sampleRate ∧
            calculateF0Autocorrelation w sampleRate ≤
              (sampleRate : ℚ) / ((max 1 (sampleRate / 500) : ℕ) : ℚ))) ∧
      (∀ v ∈ (extractF0 channelData sampleRate).values,
        50 ≤ v ∧ v ≤ (sampleRate : ℚ) / ((max 1 (sampleRate / 500) : ℕ) : ℚ)) ∧
      ((extractF0 channelData sampleRate).mean = 0 ∨
        (50 ≤ (extractF0 channelData sampleRate).mean ∧
          (extractF0 channelData sampleRate).mean ≤
            (sampleRate : ℚ) / ((max 1 (sampleRate / 500) : ℕ) : ℚ))) :=
  ⟨Real.sqrt_nonneg _, foldl_peak_nonneg _ 0 le_rfl,
   fun w _ => calculateF0_zero_or_bounds w sampleRate hsr,
   extractF0_value_bounds channelData sampleRate hsr,
   extractF0_mean_bounds channelData sampleRate hsr⟩

/-- Witness for C6 at the one-sample buffer [1] and sample rate 600. -/
theorem C6_amended_witness :
    0 < 600 ∧
      (0 ≤ (extractEnergyFeatures [(1:ℚ)]).rms ∧
        0 ≤ (extractEnergyFeatures [(1:ℚ)]).peak ∧
        (∀ w ∈ slidingWindows [(1:ℚ)] (600 * 5 / 100),
          calculateF0Autocorrelation w 600 = 0 ∨
            (50 ≤ calculateF0Autocorrelation w 600 ∧
              calculateF0Autocorrelation w 600 ≤
                ((600:ℕ) : ℚ) / ((max 1 (600 / 500) : ℕ) : ℚ))) ∧
        (∀ v ∈ (extractF0 [(1:ℚ)] 600).values,
          50 ≤ v ∧ v ≤ ((600:ℕ) : ℚ) / ((max 1 (600 / 500) : ℕ) : ℚ)) ∧
        ((extractF0 [(1:ℚ)] 600).mean = 0 ∨
          (50 ≤ (extractF0 [(1:ℚ)] 600).mean ∧
            (extractF0 [(1:ℚ)] 600).mean ≤
              ((600:ℕ) : ℚ) / ((max 1 (600 / 500) : ℕ) : ℚ)))) :=
  ⟨by norm_num, C6_amended_extraction_bounds [(1:ℚ)] 600 (by norm_num)⟩

set_option maxRecDepth 8000 in
set_option maxHeartbeats 1000000 in
/-- C6 counterexample: a constant 26-sample buffer at sample rate 501 makes
the single analysis window report F0 = 501/1 = 501 Hz (lag range starts at
⌊501/500⌋ = 1), so the mean F0 is 501 — outside the claimed {0} ∪ [50,500]. -/
theorem C6_counterexample :
    (extractF0 (List.replicate 26 1) 501).mean = 501 ∧
      ¬((501:ℚ) = 0 ∨ ((50:ℚ) ≤ 501 ∧ (501:ℚ) ≤ 500)) := by
  constructor
  · norm_num [extractF0, slidingWindows, calculateF0Autocorrelation, f0Step, corrAt,
      List.replicate, List.range', List.foldl, List.zip, List.zipWith, List.take,
      List.drop, List.sum_cons, List.sum_nil, List.filter, List.map]
  · norm_num
